import Mathlib

/-!
Verification of the core job-dispatcher and resource-rotator of the
hadeswhisperbot repository, shallowly embedded from
`app/services/queue_service.py` and `app/services/api_rotator.py`.

Effects are made explicit: `datetime.utcnow()` becomes a `now : Nat`
argument, `uuid.uuid4()` becomes a `task_id : String` argument, the
processor coroutine becomes a `ProcResult` outcome argument, and
`asyncio.sleep` becomes a returned delay.  Python `int` is `Int`,
timestamps are `Nat`, and the float `success_rate` is an exact `ℚ`.
-/

namespace HadesWhisper

/-- Status untuk transcription task (`TaskStatus` in `queue_service.py`). -/
inductive TaskStatus where
  | pending
  | processing
  | completed
  | failed
  | cancelled
deriving DecidableEq, Repr

/-- Representation dari single transcription task (`TranscriptionTask`). -/
structure TranscriptionTask where
  task_id : String
  chat_id : Int
  message_id : Int
  file_path : String
  provider : String
  status : TaskStatus
  created_at : Nat
  started_at : Option Nat
  completed_at : Option Nat
  result : Option String
  error : Option String
  retry_count : Nat
  priority : Int
deriving DecidableEq, Repr

/-- `TranscriptionTask.mark_processing`. -/
def TranscriptionTask.mark_processing (t : TranscriptionTask) (now : Nat) :
    TranscriptionTask :=
  { t with status := TaskStatus.processing, started_at := some now }

/-- `TranscriptionTask.mark_completed`. -/
def TranscriptionTask.mark_completed (t : TranscriptionTask) (result : String)
    (now : Nat) : TranscriptionTask :=
  { t with status := TaskStatus.completed, completed_at := some now,
           result := some result }

/-- `TranscriptionTask.mark_failed`. -/
def TranscriptionTask.mark_failed (t : TranscriptionTask) (error : String)
    (now : Nat) : TranscriptionTask :=
  { t with status := TaskStatus.failed, completed_at := some now,
           error := some error }

/-- One entry of `asyncio.PriorityQueue`: the tuple
`(priority, task.created_at, task_id, processor)` put by `submit`; the
processor component never takes part in the ordering for distinct ids. -/
structure QEntry where
  priority : Int
  created_at : Nat
  task_id : String
deriving DecidableEq, Repr

/-- Lexicographic comparison of queue tuples, as Python compares
`(priority, created_at, task_id)`. -/
def qLt (a b : QEntry) : Prop :=
  a.priority < b.priority ∨
    (a.priority = b.priority ∧
      (a.created_at < b.created_at ∨
        (a.created_at = b.created_at ∧ a.task_id < b.task_id)))

instance (a b : QEntry) : Decidable (qLt a b) := by
  unfold qLt; infer_instance

/-- Equality of the three ordering components of two queue tuples. -/
def qKeyEq (a b : QEntry) : Prop :=
  a.priority = b.priority ∧ a.created_at = b.created_at ∧ a.task_id = b.task_id

/-- Removal of the least tuple, as `heapq` does inside
`asyncio.PriorityQueue.get`; the first entry wins exact-key ties. -/
def popMin : List QEntry → Option (QEntry × List QEntry)
  | [] => none
  | e :: rest =>
    match popMin rest with
    | none => some (e, [])
    | some (m, rest') =>
      if qLt m e then some (m, e :: rest') else some (e, rest)

/-- Lookup in the `self.tasks` dict, embedded as an association list. -/
def lookupTask : List (String × TranscriptionTask) → String → Option TranscriptionTask
  | [], _ => none
  | (k, t) :: rest, id => if k = id then some t else lookupTask rest id

/-- Write into the `self.tasks` dict (replace the binding or append it). -/
def setTask : List (String × TranscriptionTask) → String → TranscriptionTask →
    List (String × TranscriptionTask)
  | [], id, t => [(id, t)]
  | (k, u) :: rest, id, t =>
    if k = id then (id, t) :: rest else (k, u) :: setTask rest id t

/-- `self.user_task_count.get(chat_id, 0)`. -/
def getCount : List (Int × Int) → Int → Int
  | [], _ => 0
  | (c, n) :: rest, chat => if c = chat then n else getCount rest chat

/-- Write into the `self.user_task_count` dict. -/
def setCount : List (Int × Int) → Int → Int → List (Int × Int)
  | [], chat, n => [(chat, n)]
  | (c, m) :: rest, chat, n =>
    if c = chat then (chat, n) :: rest else (c, m) :: setCount rest chat n

/-- State of a `TaskQueue` instance: configuration plus the three pieces of
shared mutable state (`self.queue`, `self.tasks`, `self.user_task_count`). -/
structure TaskQueue where
  max_workers : Nat
  max_retries : Nat
  retry_delay : Nat
  rate_limit_per_user : Nat
  queue : List QEntry
  tasks : List (String × TranscriptionTask)
  user_task_count : List (Int × Int)
deriving DecidableEq, Repr

/-- A freshly constructed `TaskQueue(...)`. -/
def initQueue (max_workers max_retries retry_delay rate_limit_per_user : Nat) :
    TaskQueue :=
  { max_workers := max_workers, max_retries := max_retries,
    retry_delay := retry_delay, rate_limit_per_user := rate_limit_per_user,
    queue := [], tasks := [], user_task_count := [] }

/-- Message of the `RuntimeError` raised by `submit` on admission rejection. -/
def admissionRejectedMsg (limit : Nat) : String :=
  "Rate limit exceeded: maksimal " ++ toString limit ++
    " task concurrent per user"

/-- `TaskQueue.submit`, with the effects (`uuid.uuid4()`, `utcnow()`)
passed in as `task_id` and `now`; the raised `RuntimeError` becomes
`Except.error`. -/
def TaskQueue.submit (q : TaskQueue) (chat_id message_id : Int)
    (file_path provider : String) (priority : Int) (task_id : String)
    (now : Nat) : Except String (TaskQueue × String) :=
  let user_count := getCount q.user_task_count chat_id
  if user_count ≥ (q.rate_limit_per_user : Int) then
    Except.error (admissionRejectedMsg q.rate_limit_per_user)
  else
    let task : TranscriptionTask :=
      { task_id := task_id, chat_id := chat_id, message_id := message_id,
        file_path := file_path, provider := provider,
        status := TaskStatus.pending, created_at := now, started_at := none,
        completed_at := none, result := none, error := none,
        retry_count := 0, priority := priority }
    Except.ok
      ({ q with
          tasks := setTask q.tasks task_id task,
          user_task_count := setCount q.user_task_count chat_id (user_count + 1),
          queue := q.queue ++
            [{ priority := priority, created_at := now, task_id := task_id }] },
        task_id)

/-- `TaskQueue.cancel_task`; returns the new state and the boolean result. -/
def TaskQueue.cancel_task (q : TaskQueue) (task_id : String) (now : Nat) :
    TaskQueue × Bool :=
  match lookupTask q.tasks task_id with
  | none => (q, false)
  | some task =>
    if task.status = TaskStatus.completed ∨ task.status = TaskStatus.failed then
      (q, false)
    else
      let task' := { task with status := TaskStatus.cancelled,
                               completed_at := some now }
      let count := getCount q.user_task_count task.chat_id
      ({ q with
          tasks := setTask q.tasks task_id task',
          user_task_count :=
            setCount q.user_task_count task.chat_id (max 0 (count - 1)) },
        true)

/-- First half of one `TaskQueue._worker` iteration: dequeue the least
tuple, skip it when the task is gone or already cancelled, otherwise
`mark_processing` (start of `_process_task`).  The returned flag tells
whether the processor is about to be invoked for the popped id. -/
def TaskQueue.workerBegin (q : TaskQueue) (now : Nat) :
    TaskQueue × Option (String × Bool) :=
  match popMin q.queue with
  | none => (q, none)
  | some (e, rest) =>
    match lookupTask q.tasks e.task_id with
    | none => ({ q with queue := rest }, some (e.task_id, false))
    | some task =>
      if task.status = TaskStatus.cancelled then
        ({ q with queue := rest }, some (e.task_id, false))
      else
        ({ q with
            queue := rest,
            tasks := setTask q.tasks e.task_id (task.mark_processing now) },
          some (e.task_id, true))

/-- Outcome of the awaited processor call: a returned result or a raised
exception message. -/
inductive ProcResult where
  | ok (result : String)
  | err (msg : String)
deriving DecidableEq, Repr

/-- Rest of `TaskQueue._process_task` once the processor finished: the
`try/except` retry logic and the `finally` user-count update.  Returns the
new state and the number of seconds slept (`asyncio.sleep(retry_delay)` on
the retry path, nothing otherwise). -/
def TaskQueue.finishProcessing (q : TaskQueue) (task_id : String)
    (outcome : ProcResult) (now : Nat) : TaskQueue × Nat :=
  match lookupTask q.tasks task_id with
  | none => (q, 0)
  | some task =>
    let step : TranscriptionTask × List QEntry × Nat :=
      match outcome with
      | ProcResult.ok r => (task.mark_completed r now, q.queue, 0)
      | ProcResult.err e =>
        if task.retry_count < q.max_retries then
          ({ task with retry_count := task.retry_count + 1,
                       status := TaskStatus.pending },
            q.queue ++ [{ priority := task.priority,
                          created_at := task.created_at,
                          task_id := task.task_id }],
            q.retry_delay)
        else
          (task.mark_failed e now, q.queue, 0)
    let count := getCount q.user_task_count task.chat_id
    ({ q with
        queue := step.2.1,
        tasks := setTask q.tasks task_id step.1,
        user_task_count :=
          setCount q.user_task_count task.chat_id (max 0 (count - 1)) },
      step.2.2)

/-- One observable operation on the shared queue state; worker processing
is split at the suspension point around `await processor(task)` so that
cancellations can interleave exactly where the event loop allows them. -/
inductive Op where
  | submit (chat_id message_id : Int) (file_path provider : String)
      (priority : Int) (task_id : String) (now : Nat)
  | cancel (task_id : String) (now : Nat)
  | workerBegin (now : Nat)
  | workerFinish (task_id : String) (outcome : ProcResult) (now : Nat)

/-- Apply one operation to the state (a rejected submit leaves it as is). -/
def applyOp (q : TaskQueue) (op : Op) : TaskQueue :=
  match op with
  | Op.submit chat_id message_id file_path provider priority task_id now =>
    match q.submit chat_id message_id file_path provider priority task_id now with
    | Except.ok (q', _) => q'
    | Except.error _ => q
  | Op.cancel task_id now => (q.cancel_task task_id now).1
  | Op.workerBegin now => (q.workerBegin now).1
  | Op.workerFinish task_id outcome now =>
    (q.finishProcessing task_id outcome now).1

/-- Run a list of operations from a state. -/
def runOps (q : TaskQueue) (ops : List Op) : TaskQueue :=
  ops.foldl applyOp q

/-- Status tracking untuk single API credentials (`APIStatus` in
`api_rotator.py`); the `credentials`, `session_string` and `client` I/O
handles carry no health state and are omitted. -/
structure APIStatus where
  is_available : Bool
  flood_wait_until : Option Nat
  last_success : Option Nat
  total_requests : Nat
  total_failures : Nat
deriving DecidableEq, Repr

/-- Field defaults of a freshly constructed `APIStatus(credentials=...)`. -/
def APIStatus.fresh : APIStatus :=
  { is_available := true, flood_wait_until := none, last_success := none,
    total_requests := 0, total_failures := 0 }

/-- `APIStatus.success_rate`, exactly (the Python float divisions here are
exact for the claims at issue). -/
def APIStatus.success_rate (s : APIStatus) : ℚ :=
  if s.total_requests = 0 then 100
  else ((s.total_requests : ℚ) - (s.total_failures : ℚ)) /
    (s.total_requests : ℚ) * 100

/-- `APIStatus.is_in_flood_wait`, with `datetime.utcnow()` passed as `now`. -/
def APIStatus.is_in_flood_wait (s : APIStatus) (now : Nat) : Bool :=
  match s.flood_wait_until with
  | none => false
  | some t => decide (now < t)

/-- `APIStatus.mark_flood_wait`. -/
def APIStatus.mark_flood_wait (s : APIStatus) (seconds now : Nat) : APIStatus :=
  { s with flood_wait_until := some (now + seconds), is_available := false }

/-- `APIStatus.mark_success`. -/
def APIStatus.mark_success (s : APIStatus) (now : Nat) : APIStatus :=
  let s1 := { s with last_success := some now,
                     total_requests := s.total_requests + 1,
                     is_available := true }
  match s.flood_wait_until with
  | none => s1
  | some t => if t ≤ now then { s1 with flood_wait_until := none } else s1

/-- `APIStatus.mark_failure`. -/
def APIStatus.mark_failure (s : APIStatus) : APIStatus :=
  { s with total_requests := s.total_requests + 1,
           total_failures := s.total_failures + 1 }

/-- `APIStatus.can_use`. -/
def APIStatus.can_use (s : APIStatus) (now : Nat) : Bool :=
  if s.is_in_flood_wait now then false else s.is_available

/-- Sort key used by `_select_best_api`:
`(-success_rate, last_success or datetime.min)`, with `datetime.min`
rendered as timestamp `0`. -/
def sortKey (s : APIStatus) : ℚ × Nat :=
  (-(s.success_rate), s.last_success.getD 0)

/-- Python tuple `<` on the sort keys. -/
def rkLt (a b : ℚ × Nat) : Prop :=
  a.1 < b.1 ∨ (a.1 = b.1 ∧ a.2 < b.2)

instance (a b : ℚ × Nat) : Decidable (rkLt a b) := by
  unfold rkLt; infer_instance

/-- The element `available_apis.sort(key=...)` places first: a left fold
keeping the earliest entry with the (strictly) least sort key, which is
what a stable ascending sort followed by `[0]` yields. -/
def selBest : (String × APIStatus) → List (String × APIStatus) →
    (String × APIStatus)
  | best, [] => best
  | best, c :: rest =>
    if rkLt (sortKey c.2) (sortKey best.2) then selBest c rest
    else selBest best rest

/-- `TelegramAPIRotator._select_best_api` over the `self.apis` dict
(an insertion-ordered association list), at time `now`. -/
def select_best_api (apis : List (String × APIStatus)) (now : Nat) :
    Option String :=
  match apis.filter (fun p => p.2.can_use now) with
  | [] => none
  | b :: rest => some (selBest b rest).1

/-- Message of the `RuntimeError` raised by `get_client` when no API is
usable. -/
def allFloodWaitMsg : String :=
  "Semua API sedang dalam FloodWait"

/-- Selection part of `TelegramAPIRotator.get_client`: the raised
`RuntimeError` becomes `Except.error`; the lazy client creation is
connection I/O with no bearing on selection. -/
def get_client (apis : List (String × APIStatus)) (now : Nat) :
    Except String String :=
  match select_best_api apis now with
  | none => Except.error allFloodWaitMsg
  | some name => Except.ok name

/-- Update one binding of the `self.apis` dict. -/
def setAPI : List (String × APIStatus) → String → APIStatus →
    List (String × APIStatus)
  | [], _, _ => []
  | (k, u) :: rest, name, s =>
    if k = name then (name, s) :: rest else (k, u) :: setAPI rest name s

/-- Lookup in the `self.apis` dict. -/
def lookupAPI : List (String × APIStatus) → String → Option APIStatus
  | [], _ => none
  | (k, s) :: rest, name => if k = name then some s else lookupAPI rest name

/-- `TelegramAPIRotator.mark_request_result`; note that Python's
`if flood_wait_seconds:` is false both for `None` and for `0`. -/
def mark_request_result (apis : List (String × APIStatus)) (name : String)
    (success : Bool) (flood_wait_seconds : Option Nat) (now : Nat) :
    List (String × APIStatus) :=
  match lookupAPI apis name with
  | none => apis
  | some s =>
    let s1 := if success then s.mark_success now else s.mark_failure
    let s2 :=
      match flood_wait_seconds with
      | none => s1
      | some secs => if secs = 0 then s1 else s1.mark_flood_wait secs now
    setAPI apis name s2

/-- `TelegramAPIRotator.get_available_count`. -/
def get_available_count (apis : List (String × APIStatus)) (now : Nat) : Nat :=
  (apis.filter (fun p => p.2.can_use now)).length

/-- `TelegramAPIRotator.get_total_count`. -/
def get_total_count (apis : List (String × APIStatus)) : Nat :=
  apis.length

/-- State produced by a successful `submit`. -/
def submitState (q : TaskQueue) (chat_id message_id : Int)
    (file_path provider : String) (priority : Int) (task_id : String)
    (now : Nat) : TaskQueue :=
  { q with
      tasks := setTask q.tasks task_id
        { task_id := task_id, chat_id := chat_id, message_id := message_id,
          file_path := file_path, provider := provider,
          status := TaskStatus.pending, created_at := now, started_at := none,
          completed_at := none, result := none, error := none,
          retry_count := 0, priority := priority },
      user_task_count := setCount q.user_task_count chat_id
        (getCount q.user_task_count chat_id + 1),
      queue := q.queue ++
        [{ priority := priority, created_at := now, task_id := task_id }] }

/-- State produced by a `cancel_task` that actually cancels. -/
def cancelledState (q : TaskQueue) (task_id : String)
    (task : TranscriptionTask) (now : Nat) : TaskQueue :=
  { q with
      tasks := setTask q.tasks task_id
        { task with status := TaskStatus.cancelled, completed_at := some now },
      user_task_count := setCount q.user_task_count task.chat_id
        (max 0 (getCount q.user_task_count task.chat_id - 1)) }

/-- State after a successful attempt: `mark_completed` plus the `finally`
count update. -/
def finishOkState (q : TaskQueue) (task_id : String)
    (task : TranscriptionTask) (r : String) (now : Nat) : TaskQueue :=
  { q with
      tasks := setTask q.tasks task_id (task.mark_completed r now),
      user_task_count := setCount q.user_task_count task.chat_id
        (max 0 (getCount q.user_task_count task.chat_id - 1)) }

/-- State after a failed attempt with retries left: retry bookkeeping,
re-enqueue with the original tuple, plus the `finally` count update. -/
def finishRetryState (q : TaskQueue) (task_id : String)
    (task : TranscriptionTask) : TaskQueue :=
  { q with
      queue := q.queue ++ [{ priority := task.priority,
                             created_at := task.created_at,
                             task_id := task.task_id }],
      tasks := setTask q.tasks task_id
        { task with retry_count := task.retry_count + 1,
                    status := TaskStatus.pending },
      user_task_count := setCount q.user_task_count task.chat_id
        (max 0 (getCount q.user_task_count task.chat_id - 1)) }

/-- State after a failed attempt with retries exhausted: `mark_failed`
plus the `finally` count update. -/
def finishFailState (q : TaskQueue) (task_id : String)
    (task : TranscriptionTask) (e : String) (now : Nat) : TaskQueue :=
  { q with
      tasks := setTask q.tasks task_id (task.mark_failed e now),
      user_task_count := setCount q.user_task_count task.chat_id
        (max 0 (getCount q.user_task_count task.chat_id - 1)) }

/-- Reachability invariant of the queue state: every per-owner counter
lies in `[0, rate_limit_per_user]` and every stored task's `retry_count`
is at most `max_retries`. -/
def QueueInv (q : TaskQueue) : Prop :=
  (∀ chat : Int, 0 ≤ getCount q.user_task_count chat ∧
      getCount q.user_task_count chat ≤ (q.rate_limit_per_user : Int)) ∧
  (∀ (id : String) (t : TranscriptionTask),
      lookupTask q.tasks id = some t → t.retry_count ≤ q.max_retries)

/-- Example configuration: 3 workers, `max_retries = 2`, `retry_delay = 5`,
`rate_limit_per_user = 5` (the constructor defaults). -/
def qcfg : TaskQueue := initQueue 3 2 5 5

/-- Owner 7 submits task `t1`, a worker picks it up. -/
def c1Pre : TaskQueue :=
  runOps qcfg
    [Op.submit 7 1 ("f.ogg") ("groq") 0 ("t1") 1, Op.workerBegin 2]

/-- ... and the attempt then fails, with retries left. -/
def c1Post : TaskQueue :=
  runOps c1Pre [Op.workerFinish ("t1") (ProcResult.err ("boom")) 3]

/-- Owner 7 submits three tasks under a per-owner limit of 3. -/
def c2Ops : List Op :=
  [Op.submit 7 1 ("a.ogg") ("groq") 0 ("t1") 1,
   Op.submit 7 2 ("b.ogg") ("groq") 0 ("t2") 2,
   Op.submit 7 3 ("c.ogg") ("groq") 0 ("t3") 3]

/-- A task driven to its third attempt (`retry_count = 2 = max_retries`,
currently processing). -/
def c4State : TaskQueue :=
  runOps qcfg
    [Op.submit 7 1 ("f.ogg") ("groq") 0 ("t1") 1,
     Op.workerBegin 2, Op.workerFinish ("t1") (ProcResult.err ("e1")) 3,
     Op.workerBegin 4, Op.workerFinish ("t1") (ProcResult.err ("e2")) 5,
     Op.workerBegin 6]

/-- The stored task of `c4State` at id `t1`. -/
def c4Task : TranscriptionTask :=
  { task_id := "t1", chat_id := 7, message_id := 1, file_path := "f.ogg",
    provider := "groq", status := TaskStatus.processing, created_at := 1,
    started_at := some 6, completed_at := none, result := none,
    error := none, retry_count := 2, priority := 0 }

/-- A task picked up by a worker and then cancelled mid-flight. -/
def c7Mid : TaskQueue :=
  runOps qcfg
    [Op.submit 7 1 ("f.ogg") ("groq") 0 ("t1") 1, Op.workerBegin 2,
     Op.cancel ("t1") 3]

/-- ... whose processor call afterwards returns successfully. -/
def c7Post : TaskQueue :=
  runOps c7Mid [Op.workerFinish ("t1") (ProcResult.ok ("res")) 4]

/-- Owner 7 has two live tasks and cancels the first one. -/
def c8Before : TaskQueue :=
  runOps qcfg
    [Op.submit 7 1 ("a.ogg") ("groq") 0 ("t1") 1,
     Op.submit 7 2 ("b.ogg") ("groq") 0 ("t2") 2,
     Op.cancel ("t1") 3]

/-- The state of `c1Pre`'s stored task (processing, no retries yet). -/
def c1Task : TranscriptionTask :=
  { task_id := "t1", chat_id := 7, message_id := 1, file_path := "f.ogg",
    provider := "groq", status := TaskStatus.processing, created_at := 1,
    started_at := some 2, completed_at := none, result := none,
    error := none, retry_count := 0, priority := 0 }

/-- Two 100%-success rotator entries: `alpha` fresh, `beta` with one
recorded success at time 50. -/
def c3Apis : List (String × APIStatus) :=
  [("alpha", APIStatus.fresh),
   ("beta", { is_available := true, flood_wait_until := none,
              last_success := some 50, total_requests := 1,
              total_failures := 0 })]

/-- Both rotator entries quarantined until time 100. -/
def c3AllFlooded : List (String × APIStatus) :=
  [("alpha", APIStatus.fresh.mark_flood_wait 90 10),
   ("beta", APIStatus.fresh.mark_flood_wait 80 20)]

/-- A task cancelled while still queued (no worker has picked it up). -/
def c7Skip : TaskQueue :=
  runOps qcfg
    [Op.submit 7 1 ("f.ogg") ("groq") 0 ("t1") 1, Op.cancel ("t1") 2]

/-- The stored task of `c7Skip`: cancelled while still `pending`. -/
def c7SkipTask : TranscriptionTask :=
  { task_id := "t1", chat_id := 7, message_id := 1, file_path := "f.ogg",
    provider := "groq", status := TaskStatus.cancelled, created_at := 1,
    started_at := none, completed_at := some 2, result := none,
    error := none, retry_count := 0, priority := 0 }

/-- The stored task of `c7Mid`: cancelled while `processing`. -/
def c7MidTask : TranscriptionTask :=
  { task_id := "t1", chat_id := 7, message_id := 1, file_path := "f.ogg",
    provider := "groq", status := TaskStatus.cancelled, created_at := 1,
    started_at := some 2, completed_at := some 3, result := none,
    error := none, retry_count := 0, priority := 0 }

/-- The stored task `t1` of `c8Before`: already cancelled at time 3. -/
def c8Task : TranscriptionTask :=
  { task_id := "t1", chat_id := 7, message_id := 1, file_path := "a.ogg",
    provider := "groq", status := TaskStatus.cancelled, created_at := 1,
    started_at := none, completed_at := some 3, result := none,
    error := none, retry_count := 0, priority := 0 }

theorem qLt_irrefl (a : QEntry) : ¬ qLt a a := by
  unfold qLt
  rintro (h | ⟨-, h | ⟨-, h⟩⟩) <;> exact absurd h (lt_irrefl _)

theorem qLt_trans {a b c : QEntry} (hab : qLt a b) (hbc : qLt b c) : qLt a c := by
  unfold qLt at *
  rcases hab with h1 | ⟨e1, h1 | ⟨f1, g1⟩⟩ <;>
    rcases hbc with h2 | ⟨e2, h2 | ⟨f2, g2⟩⟩
  · exact Or.inl (lt_trans h1 h2)
  · exact Or.inl (e2 ▸ h1)
  · exact Or.inl (e2 ▸ h1)
  · exact Or.inl (e1 ▸ h2)
  · exact Or.inr ⟨e1.trans e2, Or.inl (lt_trans h1 h2)⟩
  · exact Or.inr ⟨e1.trans e2, Or.inl (f2 ▸ h1)⟩
  · exact Or.inl (e1 ▸ h2)
  · exact Or.inr ⟨e1.trans e2, Or.inl (f1 ▸ h2)⟩
  · exact Or.inr ⟨e1.trans e2, Or.inr ⟨f1.trans f2, lt_trans g1 g2⟩⟩

theorem qLt_asymm {a b : QEntry} (hab : qLt a b) : ¬ qLt b a := fun hba =>
  qLt_irrefl a (qLt_trans hab hba)

theorem qLt_trichotomy (a b : QEntry) : qLt a b ∨ qKeyEq a b ∨ qLt b a := by
  unfold qLt qKeyEq
  rcases lt_trichotomy a.priority b.priority with h | h | h
  · exact Or.inl (Or.inl h)
  · rcases lt_trichotomy a.created_at b.created_at with h2 | h2 | h2
    · exact Or.inl (Or.inr ⟨h, Or.inl h2⟩)
    · rcases lt_trichotomy a.task_id b.task_id with h3 | h3 | h3
      · exact Or.inl (Or.inr ⟨h, Or.inr ⟨h2, h3⟩⟩)
      · exact Or.inr (Or.inl ⟨h, h2, h3⟩)
      · exact Or.inr (Or.inr (Or.inr ⟨h.symm, Or.inr ⟨h2.symm, h3⟩⟩))
    · exact Or.inr (Or.inr (Or.inr ⟨h.symm, Or.inl h2⟩))
  · exact Or.inr (Or.inr (Or.inl h))

theorem qKeyEq_lt_congr_left {a b x : QEntry} (h : qKeyEq a b) :
    qLt a x → qLt b x := by
  obtain ⟨h1, h2, h3⟩ := h
  unfold qLt
  rw [h1, h2, h3]
  exact id

theorem popMin_eq_none {l : List QEntry} (h : popMin l = none) : l = [] := by
  cases l with
  | nil => rfl
  | cons e rest =>
    unfold popMin at h
    cases hr : popMin rest with
    | none => simp [hr] at h
    | some p =>
      rw [hr] at h
      by_cases hc : qLt p.1 e <;> simp [hc] at h

theorem popMin_min {l : List QEntry} {m : QEntry} {rest : List QEntry}
    (h : popMin l = some (m, rest)) : ∀ x ∈ l, ¬ qLt x m := by
  induction l generalizing m rest with
  | nil => simp [popMin] at h
  | cons e tl ih =>
    unfold popMin at h
    cases hr : popMin tl with
    | none =>
      rw [hr] at h
      dsimp only at h
      rw [Option.some.injEq, Prod.mk.injEq] at h
      obtain ⟨rfl, -⟩ := h
      have htl : tl = [] := popMin_eq_none hr
      subst htl
      intro x hx
      simp at hx
      subst hx
      exact qLt_irrefl x
    | some p =>
      obtain ⟨m0, rest'⟩ := p
      rw [hr] at h
      dsimp only at h
      by_cases hc : qLt m0 e
      · rw [if_pos hc, Option.some.injEq, Prod.mk.injEq] at h
        obtain ⟨rfl, -⟩ := h
        intro x hx
        rcases List.mem_cons.1 hx with hx | hx
        · subst hx; exact qLt_asymm hc
        · exact ih hr x hx
      · rw [if_neg hc, Option.some.injEq, Prod.mk.injEq] at h
        obtain ⟨rfl, -⟩ := h
        intro x hx
        rcases List.mem_cons.1 hx with hx | hx
        · subst hx; exact qLt_irrefl x
        · intro hxe
          rcases qLt_trichotomy x m0 with h1 | h1 | h1
          · exact ih hr x hx h1
          · exact hc (qKeyEq_lt_congr_left h1 hxe)
          · exact hc (qLt_trans h1 hxe)

theorem rkLt_irrefl (a : ℚ × Nat) : ¬ rkLt a a := by
  rintro (h | ⟨-, h⟩) <;> exact absurd h (lt_irrefl _)

theorem rkLt_trans {a b c : ℚ × Nat} (hab : rkLt a b) (hbc : rkLt b c) :
    rkLt a c := by
  rcases hab with h1 | ⟨e1, h1⟩ <;> rcases hbc with h2 | ⟨e2, h2⟩
  · exact Or.inl (lt_trans h1 h2)
  · exact Or.inl (e2 ▸ h1)
  · exact Or.inl (e1 ▸ h2)
  · exact Or.inr ⟨e1.trans e2, lt_trans h1 h2⟩

theorem rkLt_asymm {a b : ℚ × Nat} (hab : rkLt a b) : ¬ rkLt b a := fun hba =>
  rkLt_irrefl a (rkLt_trans hab hba)

theorem rkLt_trichotomy (a b : ℚ × Nat) : rkLt a b ∨ a = b ∨ rkLt b a := by
  unfold rkLt
  rcases lt_trichotomy a.1 b.1 with h | h | h
  · exact Or.inl (Or.inl h)
  · rcases lt_trichotomy a.2 b.2 with h2 | h2 | h2
    · exact Or.inl (Or.inr ⟨h, h2⟩)
    · exact Or.inr (Or.inl (Prod.ext h h2))
    · exact Or.inr (Or.inr (Or.inr ⟨h.symm, h2⟩))
  · exact Or.inr (Or.inr (Or.inl h))

theorem getCount_setCount (l : List (Int × Int)) (chat n chat' : Int) :
    getCount (setCount l chat n) chat' =
      if chat = chat' then n else getCount l chat' := by
  induction l with
  | nil =>
    by_cases h : chat = chat' <;> simp [setCount, getCount, h]
  | cons p rest ih =>
    obtain ⟨c, m⟩ := p
    by_cases hc : c = chat
    · subst hc
      by_cases h : c = chat' <;> simp [setCount, getCount, h, ih]
    · by_cases h : c = chat'
      · subst h
        have hcc : ¬ chat = c := fun he => hc he.symm
        simp [setCount, hc, getCount, hcc]
      · simp [setCount, hc, getCount, h, ih]

theorem lookupTask_setTask (l : List (String × TranscriptionTask))
    (id : String) (t : TranscriptionTask) (id' : String) :
    lookupTask (setTask l id t) id' =
      if id = id' then some t else lookupTask l id' := by
  induction l with
  | nil =>
    by_cases h : id = id' <;> simp [setTask, lookupTask, h]
  | cons p rest ih =>
    obtain ⟨k, u⟩ := p
    by_cases hk : k = id
    · subst hk
      by_cases h : k = id' <;> simp [setTask, lookupTask, h, ih]
    · by_cases h : k = id'
      · subst h
        have hkk : ¬ id = k := fun he => hk he.symm
        simp [setTask, hk, lookupTask, hkk]
      · simp [setTask, hk, lookupTask, h, ih]

theorem submit_of_ge {q : TaskQueue} {chat_id : Int}
    (hge : getCount q.user_task_count chat_id ≥ (q.rate_limit_per_user : Int))
    (message_id : Int) (file_path provider : String) (priority : Int)
    (task_id : String) (now : Nat) :
    q.submit chat_id message_id file_path provider priority task_id now =
      Except.error (admissionRejectedMsg q.rate_limit_per_user) := by
  simp only [TaskQueue.submit]
  rw [if_pos hge]

theorem submit_of_lt {q : TaskQueue} {chat_id : Int}
    (hlt : ¬ getCount q.user_task_count chat_id ≥ (q.rate_limit_per_user : Int))
    (message_id : Int) (file_path provider : String) (priority : Int)
    (task_id : String) (now : Nat) :
    q.submit chat_id message_id file_path provider priority task_id now =
      Except.ok
        (submitState q chat_id message_id file_path provider priority task_id
          now, task_id) := by
  simp only [TaskQueue.submit, submitState]
  rw [if_neg hlt]

theorem cancel_task_none {q : TaskQueue} {task_id : String}
    (h : lookupTask q.tasks task_id = none) (now : Nat) :
    q.cancel_task task_id now = (q, false) := by
  simp only [TaskQueue.cancel_task]
  rw [h]

theorem cancel_task_terminal {q : TaskQueue} {task_id : String}
    {task : TranscriptionTask} (h : lookupTask q.tasks task_id = some task)
    (ht : task.status = TaskStatus.completed ∨ task.status = TaskStatus.failed)
    (now : Nat) :
    q.cancel_task task_id now = (q, false) := by
  simp only [TaskQueue.cancel_task]
  rw [h]
  exact if_pos ht

theorem cancel_task_active {q : TaskQueue} {task_id : String}
    {task : TranscriptionTask} (h : lookupTask q.tasks task_id = some task)
    (ht : ¬ (task.status = TaskStatus.completed ∨
      task.status = TaskStatus.failed)) (now : Nat) :
    q.cancel_task task_id now = (cancelledState q task_id task now, true) := by
  simp only [TaskQueue.cancel_task, cancelledState]
  rw [h]
  exact if_neg ht

theorem workerBegin_empty {q : TaskQueue} (h : popMin q.queue = none)
    (now : Nat) : q.workerBegin now = (q, none) := by
  simp only [TaskQueue.workerBegin]
  rw [h]

theorem workerBegin_missing {q : TaskQueue} {e : QEntry} {rest : List QEntry}
    (h : popMin q.queue = some (e, rest))
    (hl : lookupTask q.tasks e.task_id = none) (now : Nat) :
    q.workerBegin now = ({ q with queue := rest }, some (e.task_id, false)) := by
  simp only [TaskQueue.workerBegin]
  rw [h]
  dsimp only
  rw [hl]

theorem workerBegin_cancelled {q : TaskQueue} {e : QEntry} {rest : List QEntry}
    {task : TranscriptionTask} (h : popMin q.queue = some (e, rest))
    (hl : lookupTask q.tasks e.task_id = some task)
    (hs : task.status = TaskStatus.cancelled) (now : Nat) :
    q.workerBegin now = ({ q with queue := rest }, some (e.task_id, false)) := by
  simp only [TaskQueue.workerBegin]
  rw [h]
  dsimp only
  rw [hl]
  exact if_pos hs

theorem workerBegin_run {q : TaskQueue} {e : QEntry} {rest : List QEntry}
    {task : TranscriptionTask} (h : popMin q.queue = some (e, rest))
    (hl : lookupTask q.tasks e.task_id = some task)
    (hs : ¬ task.status = TaskStatus.cancelled) (now : Nat) :
    q.workerBegin now =
      ({ q with
          queue := rest,
          tasks := setTask q.tasks e.task_id (task.mark_processing now) },
        some (e.task_id, true)) := by
  simp only [TaskQueue.workerBegin]
  rw [h]
  dsimp only
  rw [hl]
  exact if_neg hs

theorem finishProcessing_nones {q : TaskQueue} {task_id : String}
    (h : lookupTask q.tasks task_id = none) (outcome : ProcResult)
    (now : Nat) : q.finishProcessing task_id outcome now = (q, 0) := by
  simp only [TaskQueue.finishProcessing]
  rw [h]

theorem finishProcessing_ok {q : TaskQueue} {task_id : String}
    {task : TranscriptionTask} (h : lookupTask q.tasks task_id = some task)
    (r : String) (now : Nat) :
    q.finishProcessing task_id (ProcResult.ok r) now =
      (finishOkState q task_id task r now, 0) := by
  simp only [TaskQueue.finishProcessing, finishOkState]
  rw [h]

theorem finishProcessing_retry {q : TaskQueue} {task_id : String}
    {task : TranscriptionTask} (h : lookupTask q.tasks task_id = some task)
    (hr : task.retry_count < q.max_retries) (e : String) (now : Nat) :
    q.finishProcessing task_id (ProcResult.err e) now =
      (finishRetryState q task_id task, q.retry_delay) := by
  simp only [TaskQueue.finishProcessing, finishRetryState]
  rw [h]
  simp only [if_pos hr]

theorem finishProcessing_exhausted {q : TaskQueue} {task_id : String}
    {task : TranscriptionTask} (h : lookupTask q.tasks task_id = some task)
    (hr : ¬ task.retry_count < q.max_retries) (e : String) (now : Nat) :
    q.finishProcessing task_id (ProcResult.err e) now =
      (finishFailState q task_id task e now, 0) := by
  simp only [TaskQueue.finishProcessing, finishFailState]
  rw [h]
  simp only [if_neg hr]

theorem queueInv_init (mw mr rd rl : Nat) :
    QueueInv (initQueue mw mr rd rl) := by
  refine ⟨fun chat => ⟨le_refl 0, Int.natCast_nonneg rl⟩, fun id t hl => ?_⟩
  simp [initQueue, lookupTask] at hl

theorem counts_dec_bounded {q : TaskQueue}
    (hcnt : ∀ chat : Int, 0 ≤ getCount q.user_task_count chat ∧
      getCount q.user_task_count chat ≤ (q.rate_limit_per_user : Int))
    (owner : Int) :
    ∀ chat : Int,
      0 ≤ getCount (setCount q.user_task_count owner
        (max 0 (getCount q.user_task_count owner - 1))) chat ∧
      getCount (setCount q.user_task_count owner
        (max 0 (getCount q.user_task_count owner - 1))) chat ≤
        (q.rate_limit_per_user : Int) := by
  intro chat
  rw [getCount_setCount]
  by_cases hc : owner = chat
  · rw [if_pos hc]
    refine ⟨le_max_left 0 _, max_le (Int.natCast_nonneg _) ?_⟩
    have h1 := hcnt owner
    omega
  · rw [if_neg hc]
    exact hcnt chat

theorem queueInv_applyOp (q : TaskQueue) (op : Op) (h : QueueInv q) :
    QueueInv (applyOp q op) := by
  obtain ⟨hcnt, hret⟩ := h
  cases op with
  | submit chat mid fp pv pr tid now =>
    by_cases hge :
        getCount q.user_task_count chat ≥ (q.rate_limit_per_user : Int)
    · simp only [applyOp, submit_of_ge hge]
      exact ⟨hcnt, hret⟩
    · simp only [applyOp, submit_of_lt hge]
      constructor
      · intro chat'
        dsimp only [submitState]
        rw [getCount_setCount]
        by_cases hc : chat = chat'
        · rw [if_pos hc]
          have h1 := hcnt chat
          omega
        · rw [if_neg hc]
          exact hcnt chat'
      · intro id t hl
        dsimp only [submitState] at hl
        rw [lookupTask_setTask] at hl
        by_cases hid : tid = id
        · rw [if_pos hid, Option.some.injEq] at hl
          subst hl
          exact Nat.zero_le _
        · rw [if_neg hid] at hl
          exact hret id t hl
  | cancel tid now =>
    cases hlk : lookupTask q.tasks tid with
    | none =>
      simp only [applyOp, cancel_task_none hlk]
      exact ⟨hcnt, hret⟩
    | some task =>
      by_cases ht : task.status = TaskStatus.completed ∨
          task.status = TaskStatus.failed
      · simp only [applyOp, cancel_task_terminal hlk ht]
        exact ⟨hcnt, hret⟩
      · simp only [applyOp, cancel_task_active hlk ht]
        constructor
        · intro chat'
          dsimp only [cancelledState]
          exact counts_dec_bounded hcnt task.chat_id chat'
        · intro id t hl
          dsimp only [cancelledState] at hl
          rw [lookupTask_setTask] at hl
          by_cases hid : tid = id
          · rw [if_pos hid, Option.some.injEq] at hl
            subst hl
            exact hret tid task hlk
          · rw [if_neg hid] at hl
            exact hret id t hl
  | workerBegin now =>
    cases hp : popMin q.queue with
    | none =>
      simp only [applyOp, workerBegin_empty hp]
      exact ⟨hcnt, hret⟩
    | some p =>
      obtain ⟨e, rest⟩ := p
      cases hlk : lookupTask q.tasks e.task_id with
      | none =>
        simp only [applyOp, workerBegin_missing hp hlk]
        exact ⟨hcnt, hret⟩
      | some task =>
        by_cases hs : task.status = TaskStatus.cancelled
        · simp only [applyOp, workerBegin_cancelled hp hlk hs]
          exact ⟨hcnt, hret⟩
        · simp only [applyOp, workerBegin_run hp hlk hs]
          constructor
          · exact hcnt
          · intro id t hl
            dsimp only at hl
            rw [lookupTask_setTask] at hl
            by_cases hid : e.task_id = id
            · rw [if_pos hid, Option.some.injEq] at hl
              subst hl
              exact hret e.task_id task hlk
            · rw [if_neg hid] at hl
              exact hret id t hl
  | workerFinish tid outcome now =>
    cases hlk : lookupTask q.tasks tid with
    | none =>
      simp only [applyOp, finishProcessing_nones hlk]
      exact ⟨hcnt, hret⟩
    | some task =>
      cases outcome with
      | ok r =>
        simp only [applyOp, finishProcessing_ok hlk]
        constructor
        · intro chat'
          dsimp only [finishOkState]
          exact counts_dec_bounded hcnt task.chat_id chat'
        · intro id t hl
          dsimp only [finishOkState] at hl
          rw [lookupTask_setTask] at hl
          by_cases hid : tid = id
          · rw [if_pos hid, Option.some.injEq] at hl
            subst hl
            exact hret tid task hlk
          · rw [if_neg hid] at hl
            exact hret id t hl
      | err e =>
        by_cases hr : task.retry_count < q.max_retries
        · simp only [applyOp, finishProcessing_retry hlk hr]
          constructor
          · intro chat'
            dsimp only [finishRetryState]
            exact counts_dec_bounded hcnt task.chat_id chat'
          · intro id t hl
            dsimp only [finishRetryState] at hl
            rw [lookupTask_setTask] at hl
            by_cases hid : tid = id
            · rw [if_pos hid, Option.some.injEq] at hl
              subst hl
              exact hr
            · rw [if_neg hid] at hl
              exact hret id t hl
        · simp only [applyOp, finishProcessing_exhausted hlk hr]
          constructor
          · intro chat'
            dsimp only [finishFailState]
            exact counts_dec_bounded hcnt task.chat_id chat'
          · intro id t hl
            dsimp only [finishFailState] at hl
            rw [lookupTask_setTask] at hl
            by_cases hid : tid = id
            · rw [if_pos hid, Option.some.injEq] at hl
              subst hl
              exact hret tid task hlk
            · rw [if_neg hid] at hl
              exact hret id t hl

theorem queueInv_runOps {q : TaskQueue} (h : QueueInv q) (ops : List Op) :
    QueueInv (runOps q ops) := by
  induction ops generalizing q with
  | nil => exact h
  | cons op rest ih => exact ih (queueInv_applyOp q op h)

theorem selBest_mem (b : String × APIStatus) (l : List (String × APIStatus)) :
    selBest b l ∈ b :: l := by
  induction l generalizing b with
  | nil => simp [selBest]
  | cons c rest ih =>
    unfold selBest
    by_cases hc : rkLt (sortKey c.2) (sortKey b.2)
    · rw [if_pos hc]
      exact List.mem_cons_of_mem b (ih c)
    · rw [if_neg hc]
      rcases List.mem_cons.1 (ih b) with h | h
      · exact List.mem_cons.2 (Or.inl h)
      · exact List.mem_cons.2 (Or.inr (List.mem_cons.2 (Or.inr h)))

theorem selBest_min (b : String × APIStatus) (l : List (String × APIStatus)) :
    ∀ x ∈ b :: l, ¬ rkLt (sortKey x.2) (sortKey (selBest b l).2) := by
  induction l generalizing b with
  | nil =>
    intro x hx
    simp at hx
    subst hx
    exact rkLt_irrefl _
  | cons c rest ih =>
    intro x hx
    unfold selBest
    by_cases hc : rkLt (sortKey c.2) (sortKey b.2)
    · rw [if_pos hc]
      rcases List.mem_cons.1 hx with hx | hx
      · rw [hx]
        intro hlt
        exact absurd (rkLt_trans hc hlt) (ih c c (List.mem_cons_self c rest))
      · exact ih c x hx
    · rw [if_neg hc]
      rcases List.mem_cons.1 hx with hx | hx
      · rw [hx]
        exact ih b b (List.mem_cons_self b rest)
      · rcases List.mem_cons.1 hx with hx | hx
        · rw [hx]
          intro hlt
          rcases rkLt_trichotomy (sortKey b.2) (sortKey (selBest b rest).2)
            with h1 | h1 | h1
          · exact absurd h1 (ih b b (List.mem_cons_self b rest))
          · rw [← h1] at hlt
            exact hc hlt
          · exact hc (rkLt_trans hlt h1)
        · exact ih b x (List.mem_cons.2 (Or.inr hx))

theorem applyOp_config (q : TaskQueue) (op : Op) :
    (applyOp q op).max_retries = q.max_retries ∧
    (applyOp q op).rate_limit_per_user = q.rate_limit_per_user ∧
    (applyOp q op).retry_delay = q.retry_delay := by
  cases op with
  | submit chat mid fp pv pr tid now =>
    by_cases hge :
        getCount q.user_task_count chat ≥ (q.rate_limit_per_user : Int)
    · simp [applyOp, submit_of_ge hge]
    · simp [applyOp, submit_of_lt hge, submitState]
  | cancel tid now =>
    cases hlk : lookupTask q.tasks tid with
    | none =>
      simp [applyOp, cancel_task_none hlk]
    | some task =>
      by_cases ht : task.status = TaskStatus.completed ∨
          task.status = TaskStatus.failed
      · simp [applyOp, cancel_task_terminal hlk ht]
      · simp [applyOp, cancel_task_active hlk ht, cancelledState]
  | workerBegin now =>
    cases hp : popMin q.queue with
    | none =>
      simp [applyOp, workerBegin_empty hp]
    | some p =>
      obtain ⟨e, rest⟩ := p
      cases hlk : lookupTask q.tasks e.task_id with
      | none =>
        simp [applyOp, workerBegin_missing hp hlk]
      | some task =>
        by_cases hs : task.status = TaskStatus.cancelled
        · simp [applyOp, workerBegin_cancelled hp hlk hs]
        · simp [applyOp, workerBegin_run hp hlk hs]
  | workerFinish tid outcome now =>
    cases hlk : lookupTask q.tasks tid with
    | none =>
      simp [applyOp, finishProcessing_nones hlk]
    | some task =>
      cases outcome with
      | ok r =>
        simp [applyOp, finishProcessing_ok hlk, finishOkState]
      | err e =>
        by_cases hr : task.retry_count < q.max_retries
        · simp [applyOp, finishProcessing_retry hlk hr, finishRetryState]
        · simp [applyOp, finishProcessing_exhausted hlk hr, finishFailState]

theorem runOps_config (q : TaskQueue) (ops : List Op) :
    (runOps q ops).max_retries = q.max_retries ∧
    (runOps q ops).rate_limit_per_user = q.rate_limit_per_user ∧
    (runOps q ops).retry_delay = q.retry_delay := by
  induction ops generalizing q with
  | nil => exact ⟨rfl, rfl, rfl⟩
  | cons op rest ih =>
    obtain ⟨h1, h2, h3⟩ := ih (applyOp q op)
    obtain ⟨g1, g2, g3⟩ := applyOp_config q op
    exact ⟨h1.trans g1, h2.trans g2, h3.trans g3⟩

/-- C1 counterexample: after `submit` owner 7's counter is 1 and task
`t1` is processing; a failed attempt with retries left re-queues the task
(status back to `pending`, a non-terminal status) and nevertheless
decrements the counter to 0 in the `finally` block. -/
theorem C1_counter :
    getCount c1Pre.user_task_count 7 = 1 ∧
    (lookupTask c1Post.tasks ("t1")).map TranscriptionTask.status =
      some TaskStatus.pending ∧
    getCount c1Post.user_task_count 7 = 0 := by
  exact ⟨rfl, rfl, rfl⟩

/-- C1 (amended): the `finally` block of `_process_task` decrements the
owner's counter (clamped at zero) after every processing attempt,
whatever the outcome — completion, exhaustion, or a retry re-queue — so
the decrement is per attempt, not once per lifetime at terminal status. -/
theorem C1_decrement_every_attempt (q : TaskQueue) (task_id : String)
    (task : TranscriptionTask) (outcome : ProcResult) (now : Nat)
    (h : lookupTask q.tasks task_id = some task) :
    getCount (q.finishProcessing task_id outcome now).1.user_task_count
        task.chat_id =
      max 0 (getCount q.user_task_count task.chat_id - 1) := by
  cases outcome with
  | ok r =>
    rw [finishProcessing_ok h]
    dsimp only [finishOkState]
    rw [getCount_setCount, if_pos rfl]
  | err e =>
    by_cases hr : task.retry_count < q.max_retries
    · rw [finishProcessing_retry h hr]
      dsimp only [finishRetryState]
      rw [getCount_setCount, if_pos rfl]
    · rw [finishProcessing_exhausted h hr]
      dsimp only [finishFailState]
      rw [getCount_setCount, if_pos rfl]

/-- C1 witness: the amended statement applied at the concrete retrying
trace `c1Pre`. -/
theorem C1_decrement_witness :
    getCount
        (c1Pre.finishProcessing ("t1") (ProcResult.err ("boom")) 3).1.user_task_count
        7 =
      max 0 (getCount c1Pre.user_task_count 7 - 1) :=
  C1_decrement_every_attempt c1Pre ("t1") c1Task
    (ProcResult.err ("boom")) 3 (by decide)

/-- C10: starting from a fresh `TaskQueue`, no sequence of submits,
cancels and worker steps ever drives an owner's in-flight counter below
zero, because both decrement sites clamp with `max(0, count - 1)`. -/
theorem C10_counter_nonneg (mw mr rd rl : Nat) (ops : List Op) (chat : Int) :
    0 ≤ getCount (runOps (initQueue mw mr rd rl) ops).user_task_count chat :=
  ((queueInv_runOps (queueInv_init mw mr rd rl) ops).1 chat).1

/-- C2: from any reachable state, `submit` raises the admission-rejection
`RuntimeError` exactly when the owner's in-flight counter already equals
the configured per-owner limit; otherwise it increments the counter,
stores the task in `pending` with the given priority and creation time,
and appends `(priority, created_at, task_id)` to the priority queue. -/
theorem C2_submit_admission (mw mr rd rl : Nat) (ops : List Op)
    (chat_id message_id : Int) (file_path provider : String) (priority : Int)
    (task_id : String) (now : Nat) :
    ((∃ msg, (runOps (initQueue mw mr rd rl) ops).submit chat_id message_id
        file_path provider priority task_id now = Except.error msg) ↔
      getCount (runOps (initQueue mw mr rd rl) ops).user_task_count chat_id =
        (rl : Int)) ∧
    (getCount (runOps (initQueue mw mr rd rl) ops).user_task_count chat_id ≠
        (rl : Int) →
      ∃ q' : TaskQueue,
        (runOps (initQueue mw mr rd rl) ops).submit chat_id message_id
            file_path provider priority task_id now =
          Except.ok (q', task_id) ∧
        getCount q'.user_task_count chat_id =
          getCount (runOps (initQueue mw mr rd rl) ops).user_task_count
            chat_id + 1 ∧
        (∃ t, lookupTask q'.tasks task_id = some t ∧
          t.status = TaskStatus.pending ∧ t.chat_id = chat_id ∧
          t.created_at = now ∧ t.priority = priority ∧ t.retry_count = 0) ∧
        q'.queue = (runOps (initQueue mw mr rd rl) ops).queue ++
          [{ priority := priority, created_at := now, task_id := task_id }]) := by
  have hinv := queueInv_runOps (queueInv_init mw mr rd rl) ops
  have hrl : (runOps (initQueue mw mr rd rl) ops).rate_limit_per_user = rl :=
    (runOps_config (initQueue mw mr rd rl) ops).2.1
  have hub := (hinv.1 chat_id).2
  rw [hrl] at hub
  constructor
  · constructor
    · rintro ⟨msg, hmsg⟩
      by_cases hge : getCount (runOps (initQueue mw mr rd rl) ops).user_task_count
          chat_id ≥
            ((runOps (initQueue mw mr rd rl) ops).rate_limit_per_user : Int)
      · rw [hrl] at hge
        omega
      · rw [submit_of_lt hge] at hmsg
        exact Except.noConfusion hmsg
    · intro heq
      have hge : getCount (runOps (initQueue mw mr rd rl) ops).user_task_count
          chat_id ≥
            ((runOps (initQueue mw mr rd rl) ops).rate_limit_per_user : Int) := by
        rw [hrl]
        omega
      exact ⟨_, submit_of_ge hge message_id file_path provider priority
        task_id now⟩
  · intro hne
    have hge : ¬ getCount (runOps (initQueue mw mr rd rl) ops).user_task_count
        chat_id ≥
          ((runOps (initQueue mw mr rd rl) ops).rate_limit_per_user : Int) := by
      rw [hrl]
      omega
    refine ⟨submitState (runOps (initQueue mw mr rd rl) ops) chat_id message_id
        file_path provider priority task_id now,
      submit_of_lt hge message_id file_path provider priority task_id now,
      ?_, ?_, rfl⟩
    · dsimp only [submitState]
      rw [getCount_setCount, if_pos rfl]
    · refine ⟨{ task_id := task_id, chat_id := chat_id,
                message_id := message_id, file_path := file_path,
                provider := provider, status := TaskStatus.pending,
                created_at := now, started_at := none, completed_at := none,
                result := none, error := none, retry_count := 0,
                priority := priority }, ?_, rfl, rfl, rfl, rfl, rfl⟩
      dsimp only [submitState]
      rw [lookupTask_setTask, if_pos rfl]

/-- C2 witness: with limit 3, a fourth concurrent submission by owner 7
is rejected (scenario A), and a first submission by owner 8 succeeds. -/
theorem C2_submit_witness :
    (∃ msg, (runOps (initQueue 3 2 5 3) c2Ops).submit 7 4 ("d.ogg") ("groq")
        0 ("t4") 4 = Except.error msg) ∧
    (∃ q' : TaskQueue,
      (runOps (initQueue 3 2 5 3) c2Ops).submit 8 4 ("d.ogg") ("groq")
          0 ("t4") 4 = Except.ok (q', "t4") ∧
      getCount q'.user_task_count 8 =
        getCount (runOps (initQueue 3 2 5 3) c2Ops).user_task_count 8 + 1 ∧
      (∃ t, lookupTask q'.tasks ("t4") = some t ∧
        t.status = TaskStatus.pending ∧ t.chat_id = 8 ∧
        t.created_at = 4 ∧ t.priority = 0 ∧ t.retry_count = 0) ∧
      q'.queue = (runOps (initQueue 3 2 5 3) c2Ops).queue ++
        [{ priority := 0, created_at := 4, task_id := "t4" }]) :=
  ⟨(C2_submit_admission 3 2 5 3 c2Ops 7 4 ("d.ogg") ("groq") 0 ("t4") 4).1.mpr
      (by decide),
    (C2_submit_admission 3 2 5 3 c2Ops 8 4 ("d.ogg") ("groq") 0 ("t4") 4).2
      (by decide)⟩

/-- C4: on every reachable state `retry_count` never exceeds
`max_retries`, and a failing attempt of a task whose `retry_count` has
reached `max_retries` ends exactly in `failed` with `error` and
`completed_at` set and `retry_count` unchanged. -/
theorem C4_retry_bound :
    (∀ (mw mr rd rl : Nat) (ops : List Op) (id : String)
        (t : TranscriptionTask),
      lookupTask (runOps (initQueue mw mr rd rl) ops).tasks id = some t →
      t.retry_count ≤ mr) ∧
    (∀ (q : TaskQueue) (task_id : String) (task : TranscriptionTask)
        (e : String) (now : Nat),
      lookupTask q.tasks task_id = some task →
      ¬ task.retry_count < q.max_retries →
      ∃ t', lookupTask
          (q.finishProcessing task_id (ProcResult.err e) now).1.tasks
          task_id = some t' ∧
        t'.status = TaskStatus.failed ∧ t'.error = some e ∧
        t'.completed_at = some now ∧ t'.retry_count = task.retry_count) := by
  constructor
  · intro mw mr rd rl ops id t hl
    have h := (queueInv_runOps (queueInv_init mw mr rd rl) ops).2 id t hl
    have hm : (runOps (initQueue mw mr rd rl) ops).max_retries = mr :=
      (runOps_config (initQueue mw mr rd rl) ops).1
    rw [hm] at h
    exact h
  · intro q task_id task e now hlk hr
    rw [finishProcessing_exhausted hlk hr]
    refine ⟨task.mark_failed e now, ?_, rfl, rfl, rfl, rfl⟩
    dsimp only [finishFailState]
    rw [lookupTask_setTask, if_pos rfl]

/-- C4 witness: scenario C — with `max_retries = 2` and an always-failing
processor, the third failing attempt leaves the task `failed` with
`retry_count = 2` and the error recorded; and the bound instantiated on
the concrete trace. -/
theorem C4_retry_witness :
    c4Task.retry_count ≤ 2 ∧
    (∃ t', lookupTask
        (c4State.finishProcessing ("t1") (ProcResult.err ("boom")) 9).1.tasks
        ("t1") = some t' ∧
      t'.status = TaskStatus.failed ∧ t'.error = some ("boom") ∧
      t'.completed_at = some 9 ∧ t'.retry_count = c4Task.retry_count) :=
  ⟨C4_retry_bound.1 3 2 5 5
      [Op.submit 7 1 ("f.ogg") ("groq") 0 ("t1") 1,
       Op.workerBegin 2, Op.workerFinish ("t1") (ProcResult.err ("e1")) 3,
       Op.workerBegin 4, Op.workerFinish ("t1") (ProcResult.err ("e2")) 5,
       Op.workerBegin 6] ("t1") c4Task (by decide),
    C4_retry_bound.2 c4State ("t1") c4Task ("boom") 9 (by decide) (by decide)⟩

/-- C5: a failed attempt with retries left increments `retry_count` by
one, sets the status back to `pending`, sleeps exactly `retry_delay`,
and re-enqueues `(original priority, original created_at, task_id)`; an
entry of equal priority but later creation time compares strictly larger,
so the retried job is dequeued ahead of it. -/
theorem C5_retry_requeue (q : TaskQueue) (task_id : String)
    (task : TranscriptionTask) (e : String) (now : Nat)
    (hlk : lookupTask q.tasks task_id = some task)
    (hr : task.retry_count < q.max_retries) :
    q.finishProcessing task_id (ProcResult.err e) now =
      (finishRetryState q task_id task, q.retry_delay) ∧
    (∃ t', lookupTask (finishRetryState q task_id task).tasks task_id =
        some t' ∧
      t'.retry_count = task.retry_count + 1 ∧
      t'.status = TaskStatus.pending ∧ t'.created_at = task.created_at ∧
      t'.priority = task.priority) ∧
    (finishRetryState q task_id task).queue = q.queue ++
      [{ priority := task.priority, created_at := task.created_at,
         task_id := task.task_id }] ∧
    (∀ e2 : QEntry, e2.priority = task.priority →
      task.created_at < e2.created_at →
      qLt { priority := task.priority, created_at := task.created_at,
            task_id := task.task_id } e2) := by
  refine ⟨finishProcessing_retry hlk hr e now, ?_, rfl, ?_⟩
  · refine ⟨{ task with
                retry_count := task.retry_count + 1,
                status := TaskStatus.pending }, ?_, rfl, rfl, rfl, rfl⟩
    dsimp only [finishRetryState]
    rw [lookupTask_setTask, if_pos rfl]
  · intro e2 hp hc
    exact Or.inr ⟨hp.symm, Or.inl hc⟩

/-- C5 witness: the retry bookkeeping applied to the concrete state
`c1Pre` (task `t1` processing, no retries used). -/
theorem C5_retry_witness :
    c1Pre.finishProcessing ("t1") (ProcResult.err ("boom")) 3 =
      (finishRetryState c1Pre ("t1") c1Task, c1Pre.retry_delay) ∧
    (∃ t', lookupTask (finishRetryState c1Pre ("t1") c1Task).tasks ("t1") =
        some t' ∧
      t'.retry_count = c1Task.retry_count + 1 ∧
      t'.status = TaskStatus.pending ∧ t'.created_at = c1Task.created_at ∧
      t'.priority = c1Task.priority) ∧
    (finishRetryState c1Pre ("t1") c1Task).queue = c1Pre.queue ++
      [{ priority := c1Task.priority, created_at := c1Task.created_at,
         task_id := c1Task.task_id }] ∧
    (∀ e2 : QEntry, e2.priority = c1Task.priority →
      c1Task.created_at < e2.created_at →
      qLt { priority := c1Task.priority, created_at := c1Task.created_at,
            task_id := c1Task.task_id } e2) :=
  C5_retry_requeue c1Pre ("t1") c1Task ("boom") 3 (by decide) (by decide)

/-- C6: dequeuing takes the least `(priority, created_at, task_id)`
tuple, so while a strictly smaller-priority entry — or an equal-priority
entry with an earlier creation time — is still in the queue, the later
entry is never the one dequeued. -/
theorem C6_dequeue_order (l : List QEntry) (e1 e2 m : QEntry)
    (rest : List QEntry) (h1 : e1 ∈ l) (h2 : e2 ∈ l)
    (hlt : e1.priority < e2.priority ∨
      (e1.priority = e2.priority ∧ e1.created_at < e2.created_at))
    (hpop : popMin l = some (m, rest)) : m ≠ e2 := by
  have hq : qLt e1 e2 := by
    rcases hlt with h | ⟨hp, hc⟩
    · exact Or.inl h
    · exact Or.inr ⟨hp, Or.inl hc⟩
  intro heq
  subst heq
  exact popMin_min hpop e1 h1 hq

/-- C6 witness: with entries `(1, 5, "a")` and `(0, 9, "b")` in the
queue, the pop is not the priority-1 entry. -/
theorem C6_dequeue_witness :
    ({ priority := 0, created_at := 9, task_id := "b" } : QEntry) ≠
      { priority := 1, created_at := 5, task_id := "a" } :=
  C6_dequeue_order
    [{ priority := 1, created_at := 5, task_id := "a" },
     { priority := 0, created_at := 9, task_id := "b" }]
    { priority := 0, created_at := 9, task_id := "b" }
    { priority := 1, created_at := 5, task_id := "a" }
    { priority := 0, created_at := 9, task_id := "b" }
    [{ priority := 1, created_at := 5, task_id := "a" }]
    (by decide) (by decide) (by decide) (by decide)

/-- C7 counterexample: task `t1` is cancelled while a worker is
processing it; the processor then returns successfully and `mark_completed`
runs unconditionally, so the job does transition from `cancelled` to
`completed` and its result field is set — the code never suppresses
delivery for a mid-flight cancellation. -/
theorem C7_counter :
    (lookupTask c7Mid.tasks ("t1")).map TranscriptionTask.status =
      some TaskStatus.cancelled ∧
    (lookupTask c7Post.tasks ("t1")).map TranscriptionTask.status =
      some TaskStatus.completed ∧
    (lookupTask c7Post.tasks ("t1")).map TranscriptionTask.result =
      some (some ("res")) := ⟨rfl, rfl, rfl⟩

/-- C7 (amended): if a dequeued job is already cancelled the worker skips
it without invoking the processor; but cancellation does not suppress
delivery mid-flight: a cancelled-while-processing job whose attempt
succeeds is marked `completed` with its result set. -/
theorem C7_cancel_semantics :
    (∀ (q : TaskQueue) (now : Nat) (e : QEntry) (rest : List QEntry)
        (task : TranscriptionTask),
      popMin q.queue = some (e, rest) →
      lookupTask q.tasks e.task_id = some task →
      task.status = TaskStatus.cancelled →
      q.workerBegin now = ({ q with queue := rest },
        some (e.task_id, false))) ∧
    (∀ (q : TaskQueue) (task_id : String) (task : TranscriptionTask)
        (r : String) (now : Nat),
      lookupTask q.tasks task_id = some task →
      task.status = TaskStatus.cancelled →
      ∃ t', lookupTask
          (q.finishProcessing task_id (ProcResult.ok r) now).1.tasks
          task_id = some t' ∧
        t'.status = TaskStatus.completed ∧ t'.result = some r) := by
  constructor
  · intro q now e rest task hp hl hs
    exact workerBegin_cancelled hp hl hs now
  · intro q task_id task r now hlk hs
    rw [finishProcessing_ok hlk]
    refine ⟨task.mark_completed r now, ?_, rfl, rfl⟩
    dsimp only [finishOkState]
    rw [lookupTask_setTask, if_pos rfl]

/-- C7 witness: the skip branch applied to a queued-then-cancelled task,
and the mid-flight branch applied to `c7Mid`. -/
theorem C7_cancel_witness :
    c7Skip.workerBegin 4 =
      ({ c7Skip with queue := [] }, some (("t1"), false)) ∧
    (∃ t', lookupTask
        (c7Mid.finishProcessing ("t1") (ProcResult.ok ("res")) 4).1.tasks
        ("t1") = some t' ∧
      t'.status = TaskStatus.completed ∧ t'.result = some ("res")) :=
  ⟨C7_cancel_semantics.1 c7Skip 4
      { priority := 0, created_at := 1, task_id := "t1" } [] c7SkipTask
      (by decide) (by decide) (by decide),
    C7_cancel_semantics.2 c7Mid ("t1") c7MidTask ("res") 4
      (by decide) (by decide)⟩

/-- C8 counterexample: `cancel_task` only treats `completed` and `failed`
as terminal, so cancelling the already-cancelled task `t1` again returns
`True`, refreshes its `completed_at` from 3 to 4, and decrements owner
7's counter a second time — from 1 (held by the still-live task `t2`)
down to 0. -/
theorem C8_counter :
    (lookupTask c8Before.tasks ("t1")).map TranscriptionTask.status =
      some TaskStatus.cancelled ∧
    getCount c8Before.user_task_count 7 = 1 ∧
    (c8Before.cancel_task ("t1") 4).2 = true ∧
    getCount (c8Before.cancel_task ("t1") 4).1.user_task_count 7 = 0 ∧
    (lookupTask (c8Before.cancel_task ("t1") 4).1.tasks ("t1")).map
      TranscriptionTask.completed_at = some (some 4) :=
  ⟨rfl, rfl, rfl, rfl, rfl⟩

/-- C8 (amended): `cancel_task` cancels and decrements the clamped
counter whenever the stored status is not `completed` and not `failed` —
including a job that is already `cancelled`, which is cancelled again
with a fresh `completed_at` and a second decrement; it is a no-op exactly
for unknown ids and for `completed`/`failed` jobs. -/
theorem C8_cancel_effects (q : TaskQueue) (task_id : String) (now : Nat) :
    (lookupTask q.tasks task_id = none →
      q.cancel_task task_id now = (q, false)) ∧
    (∀ task, lookupTask q.tasks task_id = some task →
      (task.status = TaskStatus.completed ∨
        task.status = TaskStatus.failed) →
      q.cancel_task task_id now = (q, false)) ∧
    (∀ task, lookupTask q.tasks task_id = some task →
      ¬ (task.status = TaskStatus.completed ∨
        task.status = TaskStatus.failed) →
      (q.cancel_task task_id now).2 = true ∧
      (∃ t', lookupTask (q.cancel_task task_id now).1.tasks task_id =
          some t' ∧
        t'.status = TaskStatus.cancelled ∧ t'.completed_at = some now) ∧
      getCount (q.cancel_task task_id now).1.user_task_count task.chat_id =
        max 0 (getCount q.user_task_count task.chat_id - 1)) := by
  refine ⟨fun h => cancel_task_none h now,
    fun task hlk ht => cancel_task_terminal hlk ht now,
    fun task hlk ht => ?_⟩
  rw [cancel_task_active hlk ht]
  refine ⟨rfl, ⟨{ task with
                   status := TaskStatus.cancelled,
                   completed_at := some now }, ?_, rfl, rfl⟩, ?_⟩
  · dsimp only [cancelledState]
    rw [lookupTask_setTask, if_pos rfl]
  · dsimp only [cancelledState]
    rw [getCount_setCount, if_pos rfl]

/-- C8 witness: the re-cancel branch applied to the concrete state
`c8Before` whose task `t1` is already cancelled. -/
theorem C8_cancel_witness :
    (c8Before.cancel_task ("t1") 4).2 = true ∧
    (∃ t', lookupTask (c8Before.cancel_task ("t1") 4).1.tasks ("t1") =
        some t' ∧
      t'.status = TaskStatus.cancelled ∧ t'.completed_at = some 4) ∧
    getCount (c8Before.cancel_task ("t1") 4).1.user_task_count
        c8Task.chat_id =
      max 0 (getCount c8Before.user_task_count c8Task.chat_id - 1) :=
  (C8_cancel_effects c8Before ("t1") 4).2.2 c8Task (by decide) (by decide)

/-- C3: `get_client` filters to usable credentials and errors exactly
when none is usable; a returned name is usable and optimal under
(descending `success_rate`, ascending `last_success`); and a never-used
entry sorts strictly before any entry with a recorded (positive-time)
success. -/
theorem C3_acquire_selection :
    (∀ (apis : List (String × APIStatus)) (now : Nat),
      get_client apis now = Except.error allFloodWaitMsg ↔
        ∀ p ∈ apis, p.2.can_use now = false) ∧
    (∀ (apis : List (String × APIStatus)) (now : Nat) (name : String),
      select_best_api apis now = some name →
      ∃ s : APIStatus, (name, s) ∈ apis ∧ s.can_use now = true ∧
        ∀ p ∈ apis, p.2.can_use now = true →
          p.2.success_rate ≤ s.success_rate ∧
          (p.2.success_rate = s.success_rate →
            s.last_success.getD 0 ≤ p.2.last_success.getD 0)) ∧
    (∀ (r s : APIStatus) (t : Nat), r.total_requests = 0 →
      r.last_success = none → s.last_success = some t → 0 < t →
      rkLt (sortKey r) (sortKey s)) := by
  refine ⟨?_, ?_, ?_⟩
  · intro apis now
    constructor
    · intro h p hp
      cases hsel : select_best_api apis now with
      | none =>
        unfold select_best_api at hsel
        cases hf : apis.filter (fun p => p.2.can_use now) with
        | nil =>
          have hnp := List.filter_eq_nil_iff.1 hf p hp
          simpa using hnp
        | cons b rest =>
          rw [hf] at hsel
          exact Option.noConfusion hsel
      | some n =>
        unfold get_client at h
        rw [hsel] at h
        exact Except.noConfusion h
    · intro hall
      have hf : apis.filter (fun p => p.2.can_use now) = [] :=
        List.filter_eq_nil_iff.2 (fun p hp => by rw [hall p hp]; simp)
      have hnone : select_best_api apis now = none := by
        unfold select_best_api
        rw [hf]
      unfold get_client
      rw [hnone]
  · intro apis now name hsel
    unfold select_best_api at hsel
    cases hf : apis.filter (fun p => p.2.can_use now) with
    | nil =>
      rw [hf] at hsel
      exact Option.noConfusion hsel
    | cons b rest =>
      rw [hf] at hsel
      dsimp only at hsel
      rw [Option.some.injEq] at hsel
      subst hsel
      have hmem : selBest b rest ∈ apis.filter (fun p => p.2.can_use now) := by
        rw [hf]
        exact selBest_mem b rest
      have hmem' := List.mem_filter.1 hmem
      refine ⟨(selBest b rest).2, ?_, by simpa using hmem'.2, ?_⟩
      · simpa using hmem'.1
      · intro p hp hcan
        have hpf : p ∈ apis.filter (fun p => p.2.can_use now) :=
          List.mem_filter.2 ⟨hp, by simpa using hcan⟩
        rw [hf] at hpf
        have hmin := selBest_min b rest p hpf
        unfold rkLt sortKey at hmin
        push_neg at hmin
        obtain ⟨hm1, hm2⟩ := hmin
        constructor
        · dsimp only at hm1
          linarith
        · intro he
          have := hm2 (by dsimp only; rw [he])
          simpa using this
  · intro r s t hreq hrls hsls ht
    have hr100 : r.success_rate = 100 := by
      unfold APIStatus.success_rate
      rw [if_pos hreq]
    have hs100 : s.success_rate ≤ 100 := by
      unfold APIStatus.success_rate
      by_cases h0 : s.total_requests = 0
      · rw [if_pos h0]
      · rw [if_neg h0]
        have hpos : (0:ℚ) < (s.total_requests : ℚ) := by
          exact_mod_cast Nat.pos_of_ne_zero h0
        have hfail : (0:ℚ) ≤ (s.total_failures : ℚ) := by positivity
        have hdiv : ((s.total_requests : ℚ) - (s.total_failures : ℚ)) /
            (s.total_requests : ℚ) ≤ 1 :=
          (div_le_one hpos).2 (by linarith)
        linarith
    rcases lt_or_eq_of_le hs100 with h | h
    · refine Or.inl ?_
      dsimp only [sortKey]
      rw [hr100]
      exact neg_lt_neg h
    · refine Or.inr ⟨?_, ?_⟩
      · dsimp only [sortKey]
        rw [hr100, h]
      · dsimp only [sortKey]
        rw [hrls, hsls]
        simpa using ht

/-- C3 witness: scenario E (all entries quarantined makes `get_client`
error), optimal selection on a two-entry pool, and the fresh-before-used
ordering at a concrete pair. -/
theorem C3_acquire_witness :
    get_client c3AllFlooded 50 = Except.error allFloodWaitMsg ∧
    (∃ s : APIStatus, (("alpha"), s) ∈ c3Apis ∧ s.can_use 60 = true ∧
      ∀ p ∈ c3Apis, p.2.can_use 60 = true →
        p.2.success_rate ≤ s.success_rate ∧
        (p.2.success_rate = s.success_rate →
          s.last_success.getD 0 ≤ p.2.last_success.getD 0)) ∧
    rkLt (sortKey APIStatus.fresh)
      (sortKey { is_available := true, flood_wait_until := none,
                 last_success := some 50, total_requests := 1,
                 total_failures := 0 }) :=
  ⟨(C3_acquire_selection.1 c3AllFlooded 50).mpr (by decide),
    C3_acquire_selection.2.1 c3Apis 60 ("alpha") (by
      simp [select_best_api, c3Apis, selBest, sortKey, rkLt,
        APIStatus.can_use, APIStatus.is_in_flood_wait, APIStatus.fresh,
        APIStatus.success_rate]),
    C3_acquire_selection.2.2 APIStatus.fresh
      { is_available := true, flood_wait_until := none,
        last_success := some 50, total_requests := 1, total_failures := 0 }
      50 rfl rfl rfl (by decide)⟩

/-- C9 counterexample: quarantine at time 10 for 60 seconds (expiry 70);
a success report at time 30 — strictly before expiry — leaves the
resource unusable at 69 but usable at 80 with no further report, so
eligibility is regained without any `report(success=true)` at or after
the expiry. -/
theorem C9_counter :
    (APIStatus.fresh.mark_flood_wait 60 10).can_use 80 = false ∧
    ((APIStatus.fresh.mark_flood_wait 60 10).mark_success 30).can_use 69 =
      false ∧
    ((APIStatus.fresh.mark_flood_wait 60 10).mark_success 30).can_use 80 =
      true := ⟨rfl, rfl, rfl⟩

/-- C9 (amended): `can_use` is false whenever `flood_wait_until` lies in
the future; after `mark_flood_wait` the resource stays unusable at every
time — expiry alone never restores it, because `available` was cleared;
and after a success report at time `t'` the resource is usable at time
`now'` exactly when the quarantine window has passed relative to the
report (which then also clears `flood_wait_until`) or to the query time. -/
theorem C9_quarantine_semantics :
    (∀ (s : APIStatus) (now t : Nat), s.flood_wait_until = some t →
      now < t → s.can_use now = false) ∧
    (∀ (s : APIStatus) (secs now now' : Nat),
      (s.mark_flood_wait secs now).can_use now' = false) ∧
    (∀ (s : APIStatus) (secs now t' now' : Nat),
      ((s.mark_flood_wait secs now).mark_success t').can_use now' = true ↔
        (now + secs ≤ t' ∨ now + secs ≤ now')) := by
  refine ⟨?_, ?_, ?_⟩
  · intro s now t h hn
    simp [APIStatus.can_use, APIStatus.is_in_flood_wait, h, hn]
  · intro s secs now now'
    simp only [APIStatus.can_use, APIStatus.is_in_flood_wait,
      APIStatus.mark_flood_wait]
    split <;> rfl
  · intro s secs now t' now'
    simp only [APIStatus.mark_flood_wait, APIStatus.mark_success]
    by_cases h1 : now + secs ≤ t'
    · rw [if_pos h1]
      simp [APIStatus.can_use, APIStatus.is_in_flood_wait, h1]
    · rw [if_neg h1]
      simp only [APIStatus.can_use, APIStatus.is_in_flood_wait]
      by_cases h2 : now' < now + secs
      · simp [h2]
        omega
      · simp [h2]
        omega

/-- C9 witness: the amended semantics applied at the concrete quarantine
of `C9_counter` (expiry 70, success at 30, queries at 30 and 80). -/
theorem C9_quarantine_witness :
    (APIStatus.fresh.mark_flood_wait 60 10).can_use 30 = false ∧
    (((APIStatus.fresh.mark_flood_wait 60 10).mark_success 30).can_use 80 =
      true ↔ (10 + 60 ≤ 30 ∨ 10 + 60 ≤ 80)) :=
  ⟨C9_quarantine_semantics.1 (APIStatus.fresh.mark_flood_wait 60 10) 30 70
      rfl (by decide),
    C9_quarantine_semantics.2.2 APIStatus.fresh 60 10 30 80⟩

end HadesWhisper
